import Mathlib

/-!
Verification development for the ITD SDK JavaScript client library.

The development shallowly embeds the parts of the source that the checked
claims are about: the JSON value model and the truthiness/member-access
semantics the decoders rely on, the mirror-pool construction and round-robin
dispatch (`src/mirror-pool.js`), the token-file writer (`token-storage.js`),
the authentication manager (`AuthManager.refreshAccessToken`,
`AuthManager.logout`, `AuthManager.checkAuth`) and two representative
resource methods (`UsersManager.getMyProfile`,
`NotificationsManager.getNotifications`), together with the response-envelope
decoders of `SearchManager.search` and `UsersManager.getFollowers`.

HTTP transport, the filesystem and `JSON.parse` are external collaborators:
each embedded operation takes the observed outcome of those collaborators as
an explicit argument (an outcome/file-read inductive) and returns the state
updates and persisted values as data, so every definition is executable.
-/

namespace ITDSDK

/-- JSON values as produced by `JSON.parse` / axios response bodies.
Objects are association lists with distinct keys (duplicate keys are already
collapsed by `JSON.parse`, last occurrence winning). Numbers are modelled as
integers: the claims only use numeric payloads as opaque values. -/
inductive Json where
  | null
  | bool (b : Bool)
  | num (n : Int)
  | str (s : String)
  | arr (elems : List Json)
  | obj (fields : List (String × Json))

/-- JavaScript truthiness of a JSON value: `null`, `false`, `0` and `""` are
falsy; every array and object (including empty ones) is truthy. -/
def truthy : Json → Bool
  | .null => false
  | .bool b => b
  | .num n => n != 0
  | .str s => s ≠ ""
  | .arr _ => true
  | .obj _ => true

/-- Truthiness of a possibly-absent value (`undefined` is falsy). -/
def truthyOpt : Option Json → Bool
  | none => false
  | some v => truthy v

/-- Field lookup on an object's association list (absent key = `undefined`). -/
def lookupField (fields : List (String × Json)) (key : String) : Option Json :=
  match fields.find? (fun kv => kv.1 == key) with
  | some kv => some kv.2
  | none => none

/-- JavaScript member access `v[key]`: raises `TypeError` when the receiver is
`null`/`undefined` (modelled by `Json.null`), returns the field on objects and
`undefined` (`none`) on every other receiver. -/
def jsGet : Json → String → Except Unit (Option Json)
  | .null, _ => .error ()
  | .obj fields, key => .ok (lookupField fields key)
  | _, _ => .ok none

/-- The JavaScript idiom `v || dflt`: keeps `v` when truthy, otherwise the
default. -/
def jsOr (v : Option Json) (dflt : Json) : Json :=
  match v with
  | some x => if truthy x then x else dflt
  | none => dflt

/-- Boolean test whether a pattern is an initial segment of a character list
(the semantics of `String#startsWith` and of the anchored line regex
`/^KEY=.*$/m` used by the token writer). -/
def startsWithChars : List Char → List Char → Bool
  | [], _ => true
  | _ :: _, [] => false
  | p :: ps, c :: cs => p == c && startsWithChars ps cs

/-- Leading-whitespace removal on a character list. -/
def dropLeadingSpaces : List Char → List Char
  | [] => []
  | c :: cs => if c.isWhitespace then dropLeadingSpaces cs else c :: cs

/-- `String#trim` modelled on the character list: whitespace removed from both
ends. -/
def trimChars (l : List Char) : List Char :=
  ((dropLeadingSpaces ((dropLeadingSpaces l).reverse)).reverse)

/-- Stringification `${v}` of the JSON values that can appear as cookie values
in a mirrors file (strings, numbers, booleans, null). -/
def jsToString : Json → String
  | .str s => s
  | .num n => toString n
  | .bool true => "true"
  | .bool false => "false"
  | .null => "null"
  | .arr _ => ""
  | .obj _ => "[object Object]"

/-! ## Mirror pool (`src/mirror-pool.js`) -/

/-- `toCookieString` (mirror-pool.js:23): a string value is trimmed; an object
(JavaScript `typeof val === 'object'`, which also admits arrays, whose entries
are index/value pairs) is folded into `k=v; ...` keeping only entries whose
value is neither `null` nor the empty string; everything else yields `""`. -/
def toCookieString (val : Json) : String :=
  match val with
  | .str s => String.mk (trimChars s.data)
  | .obj fields =>
      String.intercalate "; "
        (fields.filterMap (fun kv =>
          match kv.2 with
          | .null => none
          | .str "" => none
          | v => some (kv.1 ++ "=" ++ jsToString v)))
  | .arr xs =>
      String.intercalate "; "
        ((xs.enum).filterMap (fun iv =>
          match iv.2 with
          | .null => none
          | .str "" => none
          | v => some (toString iv.1 ++ "=" ++ jsToString v)))
  | _ => ""

/-- Combined outcome of `fs.existsSync` + `fs.readFileSync` + `JSON.parse` on
the mirrors file; filesystem and JSON parser are external collaborators. -/
inductive MirrorFileRead where
  | missing
  | invalidJson
  | parsed (data : Json)

/-- Errors thrown during pool construction. `referenceError` models the
JavaScript `ReferenceError` raised when an identifier with no binding is
evaluated in strict mode. -/
inductive PoolError where
  | fileNotFound
  | invalidJson
  | notAnObject
  | emptyObject
  | emptyCookie (key : String)
  | referenceError (ident : String)
  | emptyConfigs
  | badArgument
deriving DecidableEq

/-- Per-account client configuration assembled by `loadMirrorsFromFile`. -/
structure MirrorConfig where
  projectRoot : String
  cookiesString : String
  cookiesPath : String
  envPath : String

/-- `loadMirrorsFromFile` (mirror-pool.js:43): missing file, invalid JSON, a
non-object top level and an empty object each throw; each account key is
mapped to a config after computing its cookie string (empty cookie string
throws). The config object literal at mirror-pool.js:70 contains the
shorthand property `cookiesString`, an identifier that has no binding
anywhere in the module (the local variable on line 63 is named
`cookieString`), so evaluating the literal raises a `ReferenceError` before
any config is produced. -/
def loadMirrorsFromFile (_projectRoot : String) (file : MirrorFileRead) :
    Except PoolError (List MirrorConfig) :=
  match file with
  | .missing => .error .fileNotFound
  | .invalidJson => .error .invalidJson
  | .parsed data =>
    match data with
    | .obj fields =>
      if fields.isEmpty then .error .emptyObject
      else
        fields.mapM (fun kv =>
          let cookieString := toCookieString kv.2
          if cookieString = "" then
            .error (.emptyCookie kv.1)
          else
            .error (.referenceError "cookiesString"))
    | _ => .error .notAnObject

/-- Argument of `createMirrorPool`: an array of configs, an options object
with a `mirrorsCookiesPath` (paired with the observed read of that file), or
anything else. -/
inductive PoolInput where
  | configList (configs : List MirrorConfig)
  | options (mirrorsCookiesPath : Option String) (projectRoot : String) (file : MirrorFileRead)
  | invalid

/-- `createMirrorPool` (mirror-pool.js:111): an empty config array throws; the
options branch requires a truthy `mirrorsCookiesPath` and delegates to
`loadMirrorsFromFile`; any other argument throws. The resulting pool owns one
client per returned config. -/
def createMirrorPool : PoolInput → Except PoolError (List MirrorConfig)
  | .configList configs =>
    if configs.isEmpty then .error .emptyConfigs else .ok configs
  | .options path projectRoot file =>
    match path with
    | none => .error .badArgument
    | some p => if p = "" then .error .badArgument else loadMirrorsFromFile projectRoot file
  | .invalid => .error .badArgument

/-- `nextClient` (mirror-pool.js:135): return the client at the current index
modulo the pool size and advance the shared counter by one. -/
def nextClient {α : Type} [Inhabited α] (clients : List α) (index : Nat) : α × Nat :=
  (clients.getD (index % clients.length) default, index + 1)

/-- One call through the pool's auto-dispatch facade. Whatever the method
name, the proxy performs exactly one `nextClient` step per call: a manager
property access returns `makeManagerProxy`, whose `get` handler calls
`nextClient` once per invoked method (mirror-pool.js:146); a function-valued
property is wrapped so that each invocation calls `nextClient` once
(mirror-pool.js:180); other property reads resolve through `nextClient`
directly (mirror-pool.js:186). -/
def dispatchCall {α : Type} [Inhabited α] (clients : List α) (index : Nat)
    (_methodName : String) : α × Nat :=
  nextClient clients index

/-- Route a sequence of facade calls, collecting the client chosen for each
call and threading the shared counter. -/
def routeCalls {α : Type} [Inhabited α] (clients : List α) (index : Nat) :
    List String → List α × Nat
  | [] => ([], index)
  | m :: ms =>
    let step := dispatchCall clients index m
    let rest := routeCalls clients step.2 ms
    (step.1 :: rest.1, rest.2)

/-- Observable pool interactions: an auto-dispatch facade call, obtaining a
pinned client via `pool.getClient()`, and a method call on a previously
pinned client reference. -/
inductive PoolEvent where
  | facadeCall (methodName : String)
  | obtainPin
  | pinnedCall (methodName : String)

/-- Effect of one pool interaction on the shared round-robin counter.
`pool.getClient()` is `() => nextClient()` (mirror-pool.js:164), so obtaining
a pin advances the counter once; a pinned reference is a plain `ITDClient`,
so calls through it never reach the pool proxy and leave the counter
untouched. -/
def stepPool {α : Type} [Inhabited α] (clients : List α) (index : Nat) :
    PoolEvent → Nat
  | .facadeCall m => (dispatchCall clients index m).2
  | .obtainPin => (nextClient clients index).2
  | .pinnedCall _ => index

/-- Run a sequence of pool interactions from a starting counter value. -/
def runPool {α : Type} [Inhabited α] (clients : List α) (index : Nat)
    (events : List PoolEvent) : Nat :=
  events.foldl (stepPool clients) index

/-! ## Token file writer (`token-storage.js`) -/

/-- The fixed key of the token line in the `.env` file. -/
def tokenFileKey : String := "ITD_ACCESS_TOKEN"

/-- The `KEY=` pattern that the anchored regex `/^ITD_ACCESS_TOKEN=.*$/m`
requires at the start of a line. -/
def tokenKeyAssign : String := tokenFileKey ++ "="

/-- Whether a line matches the token-line regex, i.e. starts with the exact
key followed by `=`. -/
def isTokenLine (line : String) : Bool :=
  startsWithChars tokenKeyAssign.data line.data

/-- The line `ITD_ACCESS_TOKEN=<token>` written for a token. -/
def tokenLine (token : String) : String := tokenKeyAssign ++ token

/-- `content.replace(tokenRegex, ...)` with a non-global regex: replace the
first matching line, leave everything else untouched. -/
def replaceFirstTokenLine (newToken : String) : List String → List String
  | [] => []
  | l :: ls =>
    if isTokenLine l then tokenLine newToken :: ls
    else l :: replaceFirstTokenLine newToken ls

/-- `saveAccessToken` (token-storage.js), acting on the file content viewed as
its list of newline-separated lines (tokens and lines are newline-free, as in
any `.env` file): when some line matches the key regex, replace the first such
line in place; otherwise append `"\n" ++ KEY=value ++ "\n"`, which in the line
view appends the key line followed by a final empty line. -/
def saveAccessTokenLines (newToken : String) (content : List String) : List String :=
  if content.any isTokenLine then replaceFirstTokenLine newToken content
  else content ++ [tokenLine newToken, ""]

/-- The full writer including the existence check: a missing `.env` file is
reported as failure and nothing is written; otherwise the rewritten content is
persisted and success is reported. -/
def saveAccessToken (newToken : String) :
    Option (List String) → Option (List String) × Bool
  | none => (none, false)
  | some content => (some (saveAccessTokenLines newToken content), true)

/-! ## Session state and authentication (`AuthManager`, part_004) -/

/-- The session state owned by one client: the bearer token and cookie jar of
`ITDClient` together with the `isAuthenticated`/`userData` fields of its
`AuthManager`, plus the `Cookie` default header that `logout` clears. The
cookie jar is keyed by cookie name (all cookies here live on the one base
domain). -/
structure Session where
  accessToken : Option String
  isAuthenticated : Bool
  userData : Option Json
  cookieJar : List (String × String)
  cookieHeader : String

/-- Modelled from the spec: `ITDClient.setAccessToken` lives in `client.js`,
which is not among the provided sources. Per the spec (§3, Session), the
session's `accessToken` is "mutated only by explicit `setAccessToken`", which
stores the given token (or clears it when passed no token). -/
def setAccessToken (s : Session) (token : Option String) : Session :=
  { s with accessToken := token }

/-- `AuthManager.checkAuth` (part_004:121): authenticated when the client
holds a truthy access token or the sticky flag is set. -/
def checkAuth (s : Session) : Bool :=
  (match s.accessToken with
   | some t => t ≠ ""
   | none => false) || s.isAuthenticated

/-- `CookieJar#setCookieSync` on one parsed cookie: replace the value of an
existing cookie with the same name, otherwise add the cookie. -/
def jarInsert (jar : List (String × String)) (c : String × String) :
    List (String × String) :=
  if jar.any (fun e => e.1 == c.1) then
    jar.map (fun e => if e.1 == c.1 then c else e)
  else jar ++ [c]

/-- The per-cookie merge loop of `refreshAccessToken` (part_004:51): each
`set-cookie` entry is parsed and stored, and a parse failure on one entry is
ignored (`try { ... } catch (e) { }` per cookie), leaving the jar unchanged
for that entry only. The cookie parser (tough-cookie) is an external
collaborator, passed as a function returning `none` on malformed input. -/
def mergeSetCookies (parse : String → Option (String × String))
    (jar : List (String × String)) (cookies : List String) :
    List (String × String) :=
  cookies.foldl
    (fun j entry =>
      match parse entry with
      | some c => jarInsert j c
      | none => j)
    jar

/-- The cookie filter of `refreshAccessToken` (part_004:63): keep
`refresh_token`, the `__ddg*` anti-bot cookies and `is_auth`. -/
def isImportantCookie (key : String) : Bool :=
  key == "refresh_token" || startsWithChars "__ddg".data key.data || key == "is_auth"

/-- The cookie header persisted after a refresh (part_004:68): the important
cookies joined as `k=v; ...`, written only when at least one is present. -/
def importantCookieHeader (jar : List (String × String)) : Option String :=
  let important := jar.filter (fun c => isImportantCookie c.1)
  if important.isEmpty then none
  else some (String.intercalate "; " (important.map (fun c => c.1 ++ "=" ++ c.2)))

/-- Outcome of the refresh POST observed by `refreshAccessToken`: a thrown
transport error, or a response with its status, the `accessToken` field of the
body (absent or a string) and the `set-cookie` header (absent or a list of
cookie strings). -/
inductive RefreshOutcome where
  | thrown
  | resp (status : Nat) (accessToken : Option String) (setCookie : Option (List String))

/-- Everything one invocation of `refreshAccessToken` produces: the updated
session, the token handed to `saveAccessToken` (if any), the header handed to
`saveCookieHeader` (if any), the returned value, and the number of POSTs to
the refresh endpoint issued by this invocation. -/
structure RefreshResult where
  session : Session
  savedToken : Option String
  savedCookieHeader : Option String
  returned : Option String
  refreshRequests : Nat

/-- The result of every failure path of `refreshAccessToken`: return `null`,
touch nothing, persist nothing. The POST was still issued (`refreshRequests
= 1`). -/
def refreshFailure (s : Session) : RefreshResult :=
  { session := s, savedToken := none, savedCookieHeader := none,
    returned := none, refreshRequests := 1 }

/-- `AuthManager.refreshAccessToken` (part_004:26): POST the refresh endpoint
(unconditionally — the function consults no in-flight state, so every
invocation issues its own round trip); on status 200 with a truthy
`accessToken` (a non-empty string), store the token via `setAccessToken`, set
`isAuthenticated`, persist the token, merge any `set-cookie` entries into the
jar per cookie and persist the filtered cookie header, then return the token;
on any other outcome (thrown transport error, non-200 status, absent or empty
`accessToken`) return `null` and leave session and files untouched. -/
def refreshAccessToken (parse : String → Option (String × String))
    (s : Session) : RefreshOutcome → RefreshResult
  | .thrown => refreshFailure s
  | .resp status accessToken setCookie =>
    if status = 200 then
      match accessToken with
      | some newToken =>
        if newToken = "" then refreshFailure s
        else
          let s1 := setAccessToken s (some newToken)
          let s2 := { s1 with isAuthenticated := true }
          let jar :=
            match setCookie with
            | some cookies => mergeSetCookies parse s2.cookieJar cookies
            | none => s2.cookieJar
          let header :=
            match setCookie with
            | some _ => importantCookieHeader jar
            | none => none
          { session := { s2 with cookieJar := jar },
            savedToken := some newToken,
            savedCookieHeader := header,
            returned := some newToken,
            refreshRequests := 1 }
      | none => refreshFailure s
    else refreshFailure s

/-- Outcome of the sign-out POST observed by `logout`. -/
inductive LogoutOutcome where
  | thrown
  | resp (status : Nat)
deriving DecidableEq

/-- `AuthManager.logout` (part_004:96): on status 200 clear the
`isAuthenticated` flag and `userData`, clear the access token via
`setAccessToken(null)`, empty the `Cookie` default header and return `true`;
on any other status or a thrown error return `false` and leave everything
unchanged. -/
def logout (s : Session) : LogoutOutcome → Session × Bool
  | .thrown => (s, false)
  | .resp status =>
    if status = 200 then
      let s1 := { s with isAuthenticated := false, userData := none }
      let s2 := setAccessToken s1 none
      ({ s2 with cookieHeader := "" }, true)
    else (s, false)

/-! ## Resource methods and response envelopes -/

/-- Outcome of one HTTP call observed by a resource method: a thrown
transport error, or a response with status and decoded JSON body. -/
inductive CallOutcome where
  | thrown
  | resp (status : Nat) (body : Json)

/-- A call outcome is failing when the transport threw or the status is not
the success status the method checks for. -/
def failingOutcome : CallOutcome → Bool
  | .thrown => true
  | .resp status _ => status ≠ 200

/-- `UsersManager.getMyProfile` (part_002:60): require authentication, then
return the body on status 200 and `null` on every other status or thrown
error (the `try/catch` absorbs all exceptions). -/
def getMyProfile (s : Session) : CallOutcome → Option Json :=
  fun o =>
    if !checkAuth s then none
    else
      match o with
      | .thrown => none
      | .resp status body => if status = 200 then some body else none

/-- Modelled from the spec: `ITDClient.requireAuth` lives in `client.js`,
which is not among the provided sources. Per the spec (§4.3), it is the same
cheap, purely local precondition — "is there a usable access token, or has
the session been explicitly marked authenticated" — that `checkAuth`
implements. -/
def requireAuth (s : Session) : Bool := checkAuth s

/-- Strict equality `notif.type === type` between a (possibly absent) member
value and a string: true exactly for a string field with the same content. -/
def strictEqStr (v : Option Json) (t : String) : Bool :=
  match v with
  | some (.str s) => s == t
  | _ => false

/-- The client-side type filter `notifications.filter(n => n.type === type)`
of `getNotifications`: member access `n.type` raises on a `null` element
(caught by the method's outer `try/catch`). -/
def filterByType (t : String) : List Json → Except Unit (List Json)
  | [] => .ok []
  | n :: ns =>
    match jsGet n "type" with
    | .error e => .error e
    | .ok ty =>
      match filterByType t ns with
      | .error e => .error e
      | .ok rest => .ok (if strictEqStr ty t then n :: rest else rest)

/-- The 200 branch of `NotificationsManager.getNotifications`
(notifications.js:31): take `data?.notifications` when it is an array and
`[]` otherwise, coerce `data?.hasMore` to a boolean, apply the client-side
type filter when a type was requested and the list is non-empty, and wrap the
two fields in a fresh object. -/
def getNotificationsOn200 (type? : Option String) (body : Json) :
    Except Unit Json :=
  let rawNotifications :=
    match body with
    | .obj fields =>
      match lookupField fields "notifications" with
      | some (.arr xs) => xs
      | _ => []
    | _ => []
  let hasMore :=
    match body with
    | .obj fields => truthyOpt (lookupField fields "hasMore")
    | _ => false
  let filtered :=
    match type? with
    | some t =>
      if t ≠ "" && rawNotifications.length > 0 then filterByType t rawNotifications
      else .ok rawNotifications
    | none => .ok rawNotifications
  match filtered with
  | .error e => .error e
  | .ok notifications =>
    .ok (.obj [("notifications", .arr notifications), ("hasMore", .bool hasMore)])

/-- `NotificationsManager.getNotifications` (notifications.js:19): require
authentication, then on status 200 decode the body (an exception inside the
decoding, e.g. a `null` element hitting the type filter, is caught and turned
into `null`), and return `null` on every other status or thrown error. -/
def getNotifications (s : Session) (type? : Option String) :
    CallOutcome → Option Json :=
  fun o =>
    if !requireAuth s then none
    else
      match o with
      | .thrown => none
      | .resp status body =>
        if status = 200 then
          match getNotificationsOn200 type? body with
          | .ok r => some r
          | .error _ => none
        else none

/-- The empty default result of `SearchManager.search`. -/
def searchEmptyResult : Json :=
  .obj [("users", .arr []), ("hashtags", .arr [])]

/-- The flat-shape fallback of `SearchManager.search` (search.js:41): when
`data.users` or `data.hashtags` is truthy, take those fields with `|| []`
defaults, otherwise return the empty result. -/
def searchFlat (data : Json) : Except Unit Json :=
  match jsGet data "users" with
  | .error e => .error e
  | .ok users =>
    match jsGet data "hashtags" with
    | .error e => .error e
    | .ok hashtags =>
      if truthyOpt users || truthyOpt hashtags then
        .ok (.obj [("users", jsOr users (.arr [])), ("hashtags", jsOr hashtags (.arr []))])
      else
        .ok searchEmptyResult

/-- The 200 branch of `SearchManager.search` (search.js:30): try the nested
`{ data: ... }` envelope first (member access on a `null` body raises here),
fall back to the flat shape. -/
def searchOn200 (data : Json) : Except Unit Json :=
  match jsGet data "data" with
  | .error e => .error e
  | .ok dd =>
    match dd with
    | some d =>
      if truthy d then
        match jsGet d "users" with
        | .error e => .error e
        | .ok users =>
          match jsGet d "hashtags" with
          | .error e => .error e
          | .ok hashtags =>
            .ok (.obj [("users", jsOr users (.arr [])),
                       ("hashtags", jsOr hashtags (.arr []))])
      else searchFlat data
    | none => searchFlat data

/-- `SearchManager.search` (search.js:18): on status 200 decode the body (an
exception inside the decoding is caught by the method's `try/catch` and
turned into `null`), on any other status or thrown error return `null`. -/
def searchMethod : CallOutcome → Option Json
  | .thrown => none
  | .resp status body =>
    if status = 200 then
      match searchOn200 body with
      | .ok r => some r
      | .error _ => none
    else none

/-- The empty default result of `UsersManager.getFollowers`. -/
def followersEmptyResult : Json :=
  .obj [("users", .arr []), ("pagination", .obj [])]

/-- The flat-shape fallback of `UsersManager.getFollowers` (part_002:216):
when `data.users` is truthy, take it with `data.pagination || {}`, otherwise
return the empty result. -/
def followersFlat (data : Json) : Except Unit Json :=
  match jsGet data "users" with
  | .error e => .error e
  | .ok users =>
    match users with
    | some u =>
      if truthy u then
        match jsGet data "pagination" with
        | .error e => .error e
        | .ok pagination =>
          .ok (.obj [("users", u), ("pagination", jsOr pagination (.obj []))])
      else .ok followersEmptyResult
    | none => .ok followersEmptyResult

/-- The 200 branch of `UsersManager.getFollowers` (part_002:208): the nested
shape is used only when `data.data && data.data.users` is truthy (member
access on a `null` body raises here), otherwise the flat shape is tried. -/
def getFollowersOn200 (data : Json) : Except Unit Json :=
  match jsGet data "data" with
  | .error e => .error e
  | .ok dd =>
    match dd with
    | some d =>
      if truthy d then
        match jsGet d "users" with
        | .error e => .error e
        | .ok du =>
          match du with
          | some u =>
            if truthy u then
              match jsGet d "pagination" with
              | .error e => .error e
              | .ok pagination =>
                .ok (.obj [("users", u), ("pagination", jsOr pagination (.obj []))])
            else followersFlat data
          | none => followersFlat data
      else followersFlat data
    | none => followersFlat data

/-- `UsersManager.getFollowers` (part_002:202): on status 200 decode the body
(an exception inside the decoding is caught and turned into `null`), on any
other status or thrown error return `null`. No authentication precondition.
-/
def getFollowers : CallOutcome → Option Json
  | .thrown => none
  | .resp status body =>
    if status = 200 then
      match getFollowersOn200 body with
      | .ok r => some r
      | .error _ => none
    else none

/-- Truthiness of the `data` field of a body: the body has the nested
envelope shape in the sense of the spec's envelope rule. -/
def hasDataEnvelope (body : Json) : Bool :=
  match body with
  | .obj fields => truthyOpt (lookupField fields "data")
  | _ => false

/-- The body carries the flat search payload shape: a truthy `users` or
`hashtags` field at top level. -/
def hasFlatSearchFields (body : Json) : Bool :=
  match body with
  | .obj fields =>
    truthyOpt (lookupField fields "users") || truthyOpt (lookupField fields "hashtags")
  | _ => false

/-- The body carries the flat followers payload shape: a truthy `users` field
at top level. -/
def hasFlatUsersField (body : Json) : Bool :=
  match body with
  | .obj fields => truthyOpt (lookupField fields "users")
  | _ => false

/-- A concrete cookie parser standing in for tough-cookie in witnesses: split
at the first `=`; no `=` or an empty name is malformed. -/
def splitAtEq : List Char → Option (List Char × List Char)
  | [] => none
  | c :: cs =>
    if c = '=' then some ([], cs)
    else
      match splitAtEq cs with
      | some kv => some (c :: kv.1, kv.2)
      | none => none

/-- Concrete cookie-pair parser used to instantiate witnesses. -/
def parseCookiePair (s : String) : Option (String × String) :=
  match splitAtEq s.data with
  | some kv => if kv.1.isEmpty then none else some (String.mk kv.1, String.mk kv.2)
  | none => none

/-- An initial session for witnesses: empty, unauthenticated. -/
def session0 : Session :=
  { accessToken := none, isAuthenticated := false, userData := none,
    cookieJar := [], cookieHeader := "" }

/-- An authenticated session for witnesses. -/
def session1 : Session :=
  { accessToken := some "tok0", isAuthenticated := true, userData := none,
    cookieJar := [], cookieHeader := "" }

/-! ## Helper lemmas -/

/-- The clients chosen by a run of facade calls are the pool entries at the
successive counter values. -/
theorem routeCalls_clients {α : Type} [Inhabited α] (clients : List α) (index : Nat)
    (ms : List String) :
    (routeCalls clients index ms).1 =
      (List.range' index ms.length).map
        (fun k => clients.getD (k % clients.length) default) := by
  induction ms generalizing index with
  | nil => rfl
  | cons m ms ih => simp [routeCalls, dispatchCall, nextClient, List.range', ih]

/-- A run of facade calls advances the shared counter by exactly the number
of calls. -/
theorem routeCalls_counter {α : Type} [Inhabited α] (clients : List α) (index : Nat)
    (ms : List String) :
    (routeCalls clients index ms).2 = index + ms.length := by
  induction ms generalizing index with
  | nil => rfl
  | cons m ms ih =>
    simp [routeCalls, dispatchCall, nextClient, ih]
    omega

/-- Calls through a pinned client reference leave the pool counter unchanged. -/
theorem runPool_pinnedCalls {α : Type} [Inhabited α] (clients : List α) (index : Nat)
    (ms : List String) :
    runPool clients index (ms.map PoolEvent.pinnedCall) = index := by
  induction ms generalizing index with
  | nil => rfl
  | cons m ms ih =>
    simpa [runPool, stepPool] using ih index

/-- Every invocation of `refreshAccessToken` issues exactly one POST to the
refresh endpoint: the function consults no shared in-flight state before
issuing the request. -/
theorem refreshRequests_eq_one (parse : String → Option (String × String))
    (s : Session) (o : RefreshOutcome) :
    (refreshAccessToken parse s o).refreshRequests = 1 := by
  cases o with
  | thrown => rfl
  | resp status accessToken setCookie =>
    simp only [refreshAccessToken]
    split
    · cases accessToken with
      | none => rfl
      | some t =>
        by_cases ht : t = "" <;> simp [ht, refreshFailure]
    · rfl

/-! ## Claim theorems -/

/-- C4: for a pool built from the ordered accounts `[A, B, C]`, every call
through the auto-dispatch facade advances the shared round-robin counter by
exactly one regardless of the method names invoked, so a sequence of 7 calls
is routed to `A, B, C, A, B, C, A` and leaves the counter at 7. -/
theorem mirror_pool_round_robin {α : Type} [Inhabited α] (A B C : α)
    (ms : List String) (h : ms.length = 7) :
    (routeCalls [A, B, C] 0 ms).1 = [A, B, C, A, B, C, A] ∧
    (routeCalls [A, B, C] 0 ms).2 = 7 := by
  constructor
  · rw [routeCalls_clients, h]
    simp [List.range']
  · rw [routeCalls_counter, h]

/-- Witness for C4 at seven concrete method names. -/
theorem mirror_pool_round_robin_witness :
    (routeCalls ["A", "B", "C"] 0
        ["getNotifications", "addComment", "getMyProfile", "search",
         "getFollowers", "likeComment", "getTrending"]).1
      = ["A", "B", "C", "A", "B", "C", "A"] ∧
    (routeCalls ["A", "B", "C"] 0
        ["getNotifications", "addComment", "getMyProfile", "search",
         "getFollowers", "likeComment", "getTrending"]).2 = 7 :=
  mirror_pool_round_robin "A" "B" "C" _ rfl

/-- C8: after pinning a client with `pool.getClient()` (which advances the
counter once), any number of method calls through the pinned reference leaves
the pool's shared round-robin counter unchanged, so the next auto-dispatch
call is routed exactly as if the pinned calls had not happened. -/
theorem mirror_pool_pin_isolation {α : Type} [Inhabited α] (clients : List α)
    (index : Nat) (ms : List String) (nextName : String) :
    runPool clients index (PoolEvent.obtainPin :: ms.map PoolEvent.pinnedCall)
      = index + 1 ∧
    (dispatchCall clients
        (runPool clients index (PoolEvent.obtainPin :: ms.map PoolEvent.pinnedCall))
        nextName).1
      = (dispatchCall clients (runPool clients index [PoolEvent.obtainPin]) nextName).1 := by
  have h : runPool clients index (PoolEvent.obtainPin :: ms.map PoolEvent.pinnedCall)
      = index + 1 := by
    simpa [runPool, stepPool, nextClient] using
      runPool_pinnedCalls clients (index + 1) ms
  refine ⟨h, ?_⟩
  rw [h]
  rfl

/-- C2: `AuthManager.refreshAccessToken` has no single-flight guard: every
invocation unconditionally issues its own POST to the refresh endpoint, so a
batch of N overlapping refresh calls on the same Session issues N network
round trips, not at most one. -/
theorem refresh_no_single_flight (parse : String → Option (String × String))
    (calls : List (Session × RefreshOutcome)) :
    (calls.map (fun c => (refreshAccessToken parse c.1 c.2).refreshRequests)).sum
      = calls.length := by
  induction calls with
  | nil => rfl
  | cons c rest ih =>
    simp [refreshRequests_eq_one, ih]
    omega

/-- C3: on a perfectly well-formed mirrors file with one account,
`createMirrorPool({ mirrorsCookiesPath })` does not build a one-client pool:
evaluating the config object literal raises `ReferenceError` because the
shorthand property `cookiesString` (mirror-pool.js:70) has no binding in the
module (the local variable is named `cookieString`). -/
theorem mirror_pool_construction_reference_error :
    createMirrorPool
        (.options (some ".cookies.mirrors") "/project"
          (.parsed (.obj [("gork", .str "refresh_token=abc")])))
      = .error (.referenceError "cookiesString") := by
  rfl

/-- C10: `AuthManager.logout` returns `true` exactly on HTTP 200, in which
case the access token, the authenticated flag, the user data and the `Cookie`
default header are all cleared; on any other status or a thrown error it
returns `false` and leaves the session untouched. -/
theorem logout_contract (s : Session) (o : LogoutOutcome) :
    ((logout s o).2 = true ↔ o = .resp 200) ∧
    ((logout s o).2 = false → logout s o = (s, false)) ∧
    ((logout s o).2 = true →
      (logout s o).1.accessToken = none ∧
      (logout s o).1.isAuthenticated = false ∧
      (logout s o).1.userData = none ∧
      (logout s o).1.cookieHeader = "") := by
  cases o with
  | thrown => simp [logout]
  | resp status =>
    by_cases h : status = 200
    · subst h
      simp [logout, setAccessToken]
    · simp [logout, h]

/-- Witness for C10: a 200 sign-out on an authenticated session reports
success and clears the access token. -/
theorem logout_contract_witness :
    (logout session1 (.resp 200)).2 = true ∧
    (logout session1 (.resp 200)).1.accessToken = none := by
  have h : (logout session1 (.resp 200)).2 = true :=
    ((logout_contract session1 (.resp 200)).1).mpr rfl
  exact ⟨h, ((logout_contract session1 (.resp 200)).2.2 h).1⟩

/-- C9: on every failing call outcome (thrown transport error or non-200
status), the resource methods `UsersManager.getMyProfile` and
`NotificationsManager.getNotifications` absorb the failure and return their
`null` sentinel instead of propagating an exception (their embeddings are
total functions into `Option`), while the construction-time configuration
error of an empty mirror list does propagate as a thrown error. -/
theorem resource_failures_absorbed (s : Session) (type? : Option String)
    (o : CallOutcome) (h : failingOutcome o = true) :
    getMyProfile s o = none ∧
    getNotifications s type? o = none ∧
    createMirrorPool (.configList []) = .error .emptyConfigs := by
  refine ⟨?_, ?_, rfl⟩
  · cases o with
    | thrown =>
      by_cases hc : checkAuth s <;> simp [getMyProfile, hc]
    | resp status body =>
      simp [failingOutcome] at h
      by_cases hc : checkAuth s <;> simp [getMyProfile, hc, h]
  · cases o with
    | thrown =>
      by_cases hc : requireAuth s <;> simp [getNotifications, hc]
    | resp status body =>
      simp [failingOutcome] at h
      by_cases hc : requireAuth s <;> simp [getNotifications, hc, h]

/-- Witness for C9 at a concrete failing outcome (HTTP 500). -/
theorem resource_failures_absorbed_witness :
    getMyProfile session1 (.resp 500 .null) = none ∧
    getNotifications session1 none (.resp 500 .null) = none ∧
    createMirrorPool (.configList []) = .error .emptyConfigs :=
  resource_failures_absorbed session1 none (.resp 500 .null) (by decide)

/-- C1 counterexample: an HTTP 200 refresh response whose body carries the
`accessToken` field with the empty string is "HTTP 200 with an accessToken
field in the body", yet `refreshAccessToken` returns `null`, updates nothing
and persists nothing, because the code tests JavaScript truthiness
(`response.data?.accessToken`), not field presence. -/
theorem refresh_empty_token_counterexample :
    (refreshAccessToken parseCookiePair session0 (.resp 200 (some "") none)).returned
      = none ∧
    (refreshAccessToken parseCookiePair session0 (.resp 200 (some "") none)).returned
      ≠ some "" ∧
    (refreshAccessToken parseCookiePair session0 (.resp 200 (some "") none)).session
      = session0 ∧
    (refreshAccessToken parseCookiePair session0 (.resp 200 (some "") none)).savedToken
      = none := by
  refine ⟨rfl, ?_, rfl, rfl⟩
  intro hcon
  have : (none : Option String) = some "" := hcon
  exact Option.noConfusion this

/-- C1 (amended): `refreshAccessToken` returns the new access token exactly
when the refresh endpoint responds HTTP 200 with a non-empty `accessToken`
string in the body, in which case it stores the token in the session, sets
the authenticated flag and hands the token to the credential store; on every
other outcome (non-200 status, absent or empty `accessToken`, thrown network
error) it returns `null`, leaves the session unchanged, persists nothing and
never throws past this boundary. -/
theorem refresh_access_token_contract (parse : String → Option (String × String))
    (s : Session) (status : Nat) (accessToken : Option String)
    (setCookie : Option (List String)) :
    (∀ t, status = 200 → accessToken = some t → t ≠ "" →
      (refreshAccessToken parse s (.resp status accessToken setCookie)).returned = some t ∧
      (refreshAccessToken parse s (.resp status accessToken setCookie)).session.accessToken
        = some t ∧
      (refreshAccessToken parse s (.resp status accessToken setCookie)).session.isAuthenticated
        = true ∧
      (refreshAccessToken parse s (.resp status accessToken setCookie)).savedToken = some t) ∧
    ((status ≠ 200 ∨ accessToken = none ∨ accessToken = some "") →
      refreshAccessToken parse s (.resp status accessToken setCookie) = refreshFailure s) ∧
    refreshAccessToken parse s .thrown = refreshFailure s := by
  refine ⟨?_, ?_, rfl⟩
  · rintro t rfl rfl ht
    simp [refreshAccessToken, setAccessToken, ht]
  · rintro (h | rfl | rfl)
    · simp [refreshAccessToken, h]
    · by_cases h2 : status = 200 <;> simp [refreshAccessToken, h2]
    · by_cases h2 : status = 200 <;> simp [refreshAccessToken, h2]

/-- Witness for C1: a 200 response with token `"tkn"` succeeds; a 404
response returns the failure result. -/
theorem refresh_access_token_contract_witness :
    (refreshAccessToken parseCookiePair session0 (.resp 200 (some "tkn") none)).returned
      = some "tkn" ∧
    refreshAccessToken parseCookiePair session0 (.resp 404 none none)
      = refreshFailure session0 :=
  ⟨((refresh_access_token_contract parseCookiePair session0 200 (some "tkn") none).1
      "tkn" rfl rfl (by decide)).1,
   (refresh_access_token_contract parseCookiePair session0 404 none none).2.1
      (Or.inl (by decide))⟩

/-- A pattern is an initial segment of itself followed by anything. -/
theorem startsWithChars_self_append (p rest : List Char) :
    startsWithChars p (p ++ rest) = true := by
  induction p with
  | nil => rfl
  | cons c cs ih => simp [startsWithChars, ih]

/-- The written line `ITD_ACCESS_TOKEN=<token>` matches the key regex. -/
theorem isTokenLine_tokenLine (t : String) : isTokenLine (tokenLine t) = true := by
  have hdata : (tokenLine t).data = tokenKeyAssign.data ++ t.data := by
    simp [tokenLine, String.data_append]
  rw [isTokenLine, hdata]
  exact startsWithChars_self_append _ _

/-- The empty line does not match the key regex. -/
theorem isTokenLine_empty : isTokenLine "" = false := by decide

/-- Replacing the unique matching line: the matching line becomes the new
key line, the non-matching lines are untouched, and the match count stays
one. -/
theorem replaceFirstTokenLine_spec (t : String) (ls : List String)
    (h : ls.countP isTokenLine = 1) :
    (replaceFirstTokenLine t ls).filter isTokenLine = [tokenLine t] ∧
    (replaceFirstTokenLine t ls).filter (fun l => !isTokenLine l)
      = ls.filter (fun l => !isTokenLine l) ∧
    (replaceFirstTokenLine t ls).countP isTokenLine = 1 := by
  induction ls with
  | nil => simp at h
  | cons x xs ih =>
    by_cases hx : isTokenLine x = true
    · have hxs : xs.countP isTokenLine = 0 := by
        have := h
        simp [List.countP_cons, hx] at this
        exact List.countP_eq_zero.mpr (fun a ha => by simp [this a ha])
      have hfilter : xs.filter isTokenLine = [] := by
        rw [← List.length_eq_zero, ← List.countP_eq_length_filter]
        exact hxs
      have hrepl : replaceFirstTokenLine t (x :: xs) = tokenLine t :: xs := by
        simp [replaceFirstTokenLine, hx]
      refine ⟨?_, ?_, ?_⟩
      · rw [hrepl]
        simp [List.filter_cons, isTokenLine_tokenLine, hfilter]
      · rw [hrepl]
        simp [List.filter_cons, isTokenLine_tokenLine, hx]
      · rw [hrepl]
        simp [List.countP_cons, isTokenLine_tokenLine, hxs]
    · have hx' : isTokenLine x = false := by
        simpa using hx
      have hxs : xs.countP isTokenLine = 1 := by
        have := h
        simp [List.countP_cons, hx'] at this
        exact this
      obtain ⟨f1, f2, f3⟩ := ih hxs
      have hrepl : replaceFirstTokenLine t (x :: xs)
          = x :: replaceFirstTokenLine t xs := by
        simp [replaceFirstTokenLine, hx']
      refine ⟨?_, ?_, ?_⟩
      · rw [hrepl]
        simp [List.filter_cons, hx', f1]
      · rw [hrepl]
        simp [List.filter_cons, hx', f2]
      · rw [hrepl]
        simp [List.countP_cons, hx', f3]

/-- C6: writing token `T1` and then token `T2` with `saveAccessToken` leaves
content whose unique matching line is `ITD_ACCESS_TOKEN=T2`, with all other
lines unchanged, for every initial content with at most one matching line
(key absent, key present, any number of unrelated lines); the writer replaces
the key line in place when one exists and otherwise appends the key line
followed by a final newline (an empty final line in the line view). -/
theorem token_writer_round_trip (ls : List String) (t1 t2 : String)
    (h : ls.countP isTokenLine ≤ 1) :
    (saveAccessTokenLines t2 (saveAccessTokenLines t1 ls)).filter
        isTokenLine = [tokenLine t2] ∧
    (saveAccessTokenLines t2 (saveAccessTokenLines t1 ls)).filter
        (fun l => !isTokenLine l)
      = ls.filter (fun l => !isTokenLine l) ++
          (if ls.any isTokenLine then [] else [""]) := by
  by_cases hAny : ls.any isTokenLine = true
  · have h1 : ls.countP isTokenLine = 1 := by
      have hpos : 0 < ls.countP isTokenLine := by
        rw [List.countP_pos_iff]
        simpa [List.any_eq_true] using hAny
      omega
    have e1 : saveAccessTokenLines t1 ls = replaceFirstTokenLine t1 ls := by
      simp [saveAccessTokenLines, hAny]
    obtain ⟨f1, f2, f3⟩ := replaceFirstTokenLine_spec t1 ls h1
    have hAny1 : (replaceFirstTokenLine t1 ls).any isTokenLine = true := by
      rw [List.any_eq_true]
      have hpos : 0 < (replaceFirstTokenLine t1 ls).countP isTokenLine := by
        omega
      simpa [List.countP_pos_iff] using hpos
    have e2 : saveAccessTokenLines t2 (replaceFirstTokenLine t1 ls)
        = replaceFirstTokenLine t2 (replaceFirstTokenLine t1 ls) := by
      simp [saveAccessTokenLines, hAny1]
    obtain ⟨g1, g2, g3⟩ := replaceFirstTokenLine_spec t2 _ f3
    rw [e1, e2]
    exact ⟨g1, by rw [g2, f2]; simp [hAny]⟩
  · have hAny' : ls.any isTokenLine = false := by
      simpa using hAny
    have h0 : ls.countP isTokenLine = 0 := by
      by_contra hne
      have hpos : 0 < ls.countP isTokenLine := Nat.pos_of_ne_zero hne
      rw [List.countP_pos_iff] at hpos
      rw [List.any_eq_true] at hAny
      exact hAny (by simpa using hpos)
    have e1 : saveAccessTokenLines t1 ls = ls ++ [tokenLine t1, ""] := by
      simp [saveAccessTokenLines, hAny']
    have hcnt1 : (ls ++ [tokenLine t1, ""]).countP isTokenLine = 1 := by
      simp [List.countP_append, h0, List.countP_cons, isTokenLine_tokenLine,
        isTokenLine_empty]
    have hAny1 : (ls ++ [tokenLine t1, ""]).any isTokenLine = true := by
      rw [List.any_eq_true]
      exact ⟨tokenLine t1, by simp, isTokenLine_tokenLine t1⟩
    have e2 : saveAccessTokenLines t2 (ls ++ [tokenLine t1, ""])
        = replaceFirstTokenLine t2 (ls ++ [tokenLine t1, ""]) := by
      simp [saveAccessTokenLines, hAny1]
    obtain ⟨g1, g2, g3⟩ := replaceFirstTokenLine_spec t2 _ hcnt1
    rw [e1, e2]
    refine ⟨g1, ?_⟩
    rw [g2]
    have hnomatch : ls.filter (fun l => !isTokenLine l) = ls := by
      rw [List.filter_eq_self]
      intro a ha
      have : ¬ isTokenLine a = true := by
        rw [List.any_eq_true] at hAny
        exact fun hc => hAny ⟨a, ha, hc⟩
      simpa using this
    simp [List.filter_append, List.filter_cons, isTokenLine_tokenLine,
      isTokenLine_empty, hAny', hnomatch]

/-- Witness for C6 on a concrete three-line file with the key present. -/
theorem token_writer_round_trip_witness :
    (saveAccessTokenLines "bbb"
        (saveAccessTokenLines "aaa" ["FOO=1", "ITD_ACCESS_TOKEN=old", "BAR=2"])).filter
        isTokenLine = [tokenLine "bbb"] ∧
    (saveAccessTokenLines "bbb"
        (saveAccessTokenLines "aaa" ["FOO=1", "ITD_ACCESS_TOKEN=old", "BAR=2"])).filter
        (fun l => !isTokenLine l)
      = (["FOO=1", "ITD_ACCESS_TOKEN=old", "BAR=2"].filter (fun l => !isTokenLine l)) ++
          (if ["FOO=1", "ITD_ACCESS_TOKEN=old", "BAR=2"].any isTokenLine
           then [] else [""]) :=
  token_writer_round_trip ["FOO=1", "ITD_ACCESS_TOKEN=old", "BAR=2"] "aaa" "bbb"
    (by decide)

/-- Merging a batch decomposes over concatenation. -/
theorem mergeSetCookies_append (parse : String → Option (String × String))
    (jar : List (String × String)) (xs ys : List String) :
    mergeSetCookies parse jar (xs ++ ys)
      = mergeSetCookies parse (mergeSetCookies parse jar xs) ys := by
  simp [mergeSetCookies, List.foldl_append]

/-- A malformed entry at the head of a batch is skipped without touching the
jar or the rest of the merge. -/
theorem mergeSetCookies_skip (parse : String → Option (String × String))
    (jar : List (String × String)) (bad : String) (h : parse bad = none)
    (ys : List String) :
    mergeSetCookies parse jar (bad :: ys) = mergeSetCookies parse jar ys := by
  simp [mergeSetCookies, List.foldl_cons, h]

/-- A well-formed entry at the head of a batch is inserted before the rest of
the merge. -/
theorem mergeSetCookies_cons_some (parse : String → Option (String × String))
    (jar : List (String × String)) (x : String) (c : String × String)
    (hp : parse x = some c) (ys : List String) :
    mergeSetCookies parse jar (x :: ys)
      = mergeSetCookies parse (jarInsert jar c) ys := by
  simp [mergeSetCookies, List.foldl_cons, hp]

/-- After inserting a cookie, its name is present in the jar. -/
theorem jarInsert_key_present (jar : List (String × String)) (c : String × String) :
    (jarInsert jar c).any (fun e => e.1 == c.1) = true := by
  unfold jarInsert
  split
  case isTrue h =>
    rw [List.any_eq_true] at h ⊢
    obtain ⟨x, hx, hkey⟩ := h
    exact ⟨c, List.mem_map.2 ⟨x, hx, by simp [hkey]⟩, by simp⟩
  case isFalse h =>
    rw [List.any_eq_true]
    exact ⟨c, by simp, by simp⟩

/-- Inserting a cookie never removes an existing cookie name from the jar. -/
theorem jarInsert_preserves_key (jar : List (String × String))
    (c : String × String) (k : String) (h : jar.any (fun e => e.1 == k) = true) :
    (jarInsert jar c).any (fun e => e.1 == k) = true := by
  unfold jarInsert
  split
  case isTrue hc =>
    rw [List.any_eq_true] at h ⊢
    obtain ⟨x, hx, hk⟩ := h
    by_cases hxe : (x.1 == c.1) = true
    · refine ⟨c, List.mem_map.2 ⟨x, hx, by simp [hxe]⟩, ?_⟩
      have h1 : x.1 = c.1 := by simpa using hxe
      have h2 : x.1 = k := by simpa using hk
      have h3 : c.1 = k := h1 ▸ h2
      simp [h3]
    · refine ⟨x, List.mem_map.2 ⟨x, hx, by simp [hxe]⟩, hk⟩
  case isFalse hc =>
    rw [List.any_eq_true] at h ⊢
    obtain ⟨x, hx, hk⟩ := h
    exact ⟨x, List.mem_append.2 (Or.inl hx), hk⟩

/-- The whole merge never removes an existing cookie name from the jar. -/
theorem mergeSetCookies_preserves_key (parse : String → Option (String × String))
    (cookies : List String) (jar : List (String × String)) (k : String)
    (h : jar.any (fun e => e.1 == k) = true) :
    (mergeSetCookies parse jar cookies).any (fun e => e.1 == k) = true := by
  induction cookies generalizing jar with
  | nil => exact h
  | cons x xs ih =>
    cases hp : parse x with
    | none =>
      rw [mergeSetCookies_skip parse jar x hp xs]
      exact ih jar h
    | some c =>
      rw [mergeSetCookies_cons_some parse jar x c hp xs]
      exact ih (jarInsert jar c) (jarInsert_preserves_key jar c k h)

/-- Every entry of the batch that parses is merged: its cookie name is present
in the jar produced by the merge. -/
theorem mergeSetCookies_merges (parse : String → Option (String × String))
    (cookies : List String) (jar : List (String × String)) (entry : String)
    (c : String × String) (hmem : entry ∈ cookies) (hp : parse entry = some c) :
    (mergeSetCookies parse jar cookies).any (fun e => e.1 == c.1) = true := by
  induction cookies generalizing jar with
  | nil => cases hmem
  | cons x xs ih =>
    rcases List.mem_cons.1 hmem with rfl | hmem'
    · rw [mergeSetCookies_cons_some parse jar entry c hp xs]
      exact mergeSetCookies_preserves_key parse xs (jarInsert jar c) c.1
        (jarInsert_key_present jar c)
    · cases hpx : parse x with
      | none =>
        rw [mergeSetCookies_skip parse jar x hpx xs]
        exact ih jar hmem'
      | some cx =>
        rw [mergeSetCookies_cons_some parse jar x cx hpx xs]
        exact ih (jarInsert jar cx) hmem'

/-- C5: a malformed entry inside a multi-cookie refresh response changes
nothing — the refresh produces exactly the result it would produce without
that entry — the refresh still succeeds with the new token, and every entry
of the batch that does parse ends up merged in the session's cookie jar. -/
theorem refresh_cookie_merge_resilient (parse : String → Option (String × String))
    (s : Session) (t : String) (pre post : List String) (bad : String)
    (hbad : parse bad = none) (ht : t ≠ "") :
    refreshAccessToken parse s (.resp 200 (some t) (some (pre ++ bad :: post)))
      = refreshAccessToken parse s (.resp 200 (some t) (some (pre ++ post))) ∧
    (refreshAccessToken parse s (.resp 200 (some t) (some (pre ++ bad :: post)))).returned
      = some t ∧
    (∀ entry ∈ pre ++ bad :: post, ∀ c, parse entry = some c →
      ((refreshAccessToken parse s
          (.resp 200 (some t) (some (pre ++ bad :: post)))).session.cookieJar.any
        (fun e => e.1 == c.1)) = true) := by
  have hm : mergeSetCookies parse s.cookieJar (pre ++ bad :: post)
      = mergeSetCookies parse s.cookieJar (pre ++ post) := by
    rw [mergeSetCookies_append, mergeSetCookies_skip parse _ bad hbad,
      ← mergeSetCookies_append]
  refine ⟨?_, ?_, ?_⟩
  · simp [refreshAccessToken, setAccessToken, ht, hm]
  · simp [refreshAccessToken, ht]
  · intro entry hmem c hc
    have hjar : (refreshAccessToken parse s
        (.resp 200 (some t) (some (pre ++ bad :: post)))).session.cookieJar
        = mergeSetCookies parse s.cookieJar (pre ++ bad :: post) := by
      simp [refreshAccessToken, setAccessToken, ht]
    rw [hjar]
    exact mergeSetCookies_merges parse _ s.cookieJar entry c hmem hc

/-- Witness for C5: a malformed entry between two well-formed cookies is
skipped and the refresh still returns the token. -/
theorem refresh_cookie_merge_resilient_witness :
    refreshAccessToken parseCookiePair session0
        (.resp 200 (some "tkn") (some (["refresh_token=abc"] ++ "malformed" :: ["is_auth=1"])))
      = refreshAccessToken parseCookiePair session0
        (.resp 200 (some "tkn") (some (["refresh_token=abc"] ++ ["is_auth=1"]))) ∧
    (refreshAccessToken parseCookiePair session0
        (.resp 200 (some "tkn") (some (["refresh_token=abc"] ++ "malformed" :: ["is_auth=1"])))).returned
      = some "tkn" :=
  ⟨(refresh_cookie_merge_resilient parseCookiePair session0 "tkn"
      ["refresh_token=abc"] ["is_auth=1"] "malformed" (by decide) (by decide)).1,
   (refresh_cookie_merge_resilient parseCookiePair session0 "tkn"
      ["refresh_token=abc"] ["is_auth=1"] "malformed" (by decide) (by decide)).2.1⟩

/-- Looking up the only key of a one-field object. -/
theorem lookupField_single_hit (k : String) (v : Json) :
    lookupField [(k, v)] k = some v := by
  simp [lookupField, List.find?]

/-- Looking up a different key in a one-field object. -/
theorem lookupField_single_miss (k k' : String) (v : Json)
    (h : (k == k') = false) :
    lookupField [(k, v)] k' = none := by
  simp [lookupField, List.find?, h]

/-- `v || dflt` yields the default on a falsy or absent value. -/
theorem jsOr_of_falsy (v : Option Json) (dflt : Json) (h : truthyOpt v = false) :
    jsOr v dflt = dflt := by
  cases v with
  | none => rfl
  | some x =>
    simp [truthyOpt] at h
    simp [jsOr, h]

/-- Objects are always truthy. -/
theorem truthy_obj (fields : List (String × Json)) : truthy (.obj fields) = true := rfl

/-- Evaluation of `SearchManager.search` on a nested envelope body whose
payload is an object. -/
theorem searchMethod_nested (fields : List (String × Json)) :
    searchMethod (.resp 200 (.obj [("data", .obj fields)]))
      = some (.obj [("users", jsOr (lookupField fields "users") (.arr [])),
                    ("hashtags", jsOr (lookupField fields "hashtags") (.arr []))]) := by
  simp [searchMethod, searchOn200, jsGet, lookupField_single_hit, truthy_obj]

/-- Evaluation of `SearchManager.search` on a flat body without a `data`
field, when a payload field is truthy. -/
theorem searchMethod_flat_truthy (fields : List (String × Json))
    (h : lookupField fields "data" = none)
    (hc : (truthyOpt (lookupField fields "users")
            || truthyOpt (lookupField fields "hashtags")) = true) :
    searchMethod (.resp 200 (.obj fields))
      = some (.obj [("users", jsOr (lookupField fields "users") (.arr [])),
                    ("hashtags", jsOr (lookupField fields "hashtags") (.arr []))]) := by
  simp [searchMethod, searchOn200, searchFlat, jsGet, h, hc]

/-- Evaluation of `SearchManager.search` on a flat body without a `data`
field, when no payload field is truthy. -/
theorem searchMethod_flat_falsy (fields : List (String × Json))
    (h : lookupField fields "data" = none)
    (hu : truthyOpt (lookupField fields "users") = false)
    (hh : truthyOpt (lookupField fields "hashtags") = false) :
    searchMethod (.resp 200 (.obj fields)) = some searchEmptyResult := by
  simp [searchMethod, searchOn200, searchFlat, jsGet, h, hu, hh]

/-- Evaluation of `UsersManager.getFollowers` on a nested envelope body with
a truthy `users` payload field. -/
theorem getFollowers_nested_truthy (fields : List (String × Json)) (u : Json)
    (hu : lookupField fields "users" = some u) (ht : truthy u = true) :
    getFollowers (.resp 200 (.obj [("data", .obj fields)]))
      = some (.obj [("users", u),
                    ("pagination", jsOr (lookupField fields "pagination") (.obj []))]) := by
  simp [getFollowers, getFollowersOn200, jsGet, lookupField_single_hit, truthy_obj, hu, ht]

/-- Evaluation of `UsersManager.getFollowers` on a nested envelope body whose
`users` payload field is falsy or absent: the flat fallback on the outer body
finds no `users` field and yields the empty default. -/
theorem getFollowers_nested_falsy (fields : List (String × Json))
    (hu : truthyOpt (lookupField fields "users") = false) :
    getFollowers (.resp 200 (.obj [("data", .obj fields)]))
      = some followersEmptyResult := by
  have houter : lookupField [("data", Json.obj fields)] "users" = none :=
    lookupField_single_miss _ _ _ (by decide)
  cases hx : lookupField fields "users" with
  | none =>
    simp [getFollowers, getFollowersOn200, followersFlat, jsGet,
      lookupField_single_hit, truthy_obj, hx, houter]
  | some u =>
    have htu : truthy u = false := by simpa [truthyOpt, hx] using hu
    simp [getFollowers, getFollowersOn200, followersFlat, jsGet,
      lookupField_single_hit, truthy_obj, hx, htu, houter]

/-- Evaluation of `UsersManager.getFollowers` on a flat body without a `data`
field, when the `users` field is truthy. -/
theorem getFollowers_flat_truthy (fields : List (String × Json)) (u : Json)
    (h : lookupField fields "data" = none)
    (hu : lookupField fields "users" = some u) (ht : truthy u = true) :
    getFollowers (.resp 200 (.obj fields))
      = some (.obj [("users", u),
                    ("pagination", jsOr (lookupField fields "pagination") (.obj []))]) := by
  simp [getFollowers, getFollowersOn200, followersFlat, jsGet, h, hu, ht]

/-- Evaluation of `UsersManager.getFollowers` on a flat body without a `data`
field, when the `users` field is falsy or absent. -/
theorem getFollowers_flat_falsy (fields : List (String × Json))
    (h : lookupField fields "data" = none)
    (hu : truthyOpt (lookupField fields "users") = false) :
    getFollowers (.resp 200 (.obj fields)) = some followersEmptyResult := by
  cases hx : lookupField fields "users" with
  | none => simp [getFollowers, getFollowersOn200, followersFlat, jsGet, h, hx]
  | some u =>
    have htu : truthy u = false := by simpa [truthyOpt, hx] using hu
    simp [getFollowers, getFollowersOn200, followersFlat, jsGet, h, hx, htu]

/-- C7 counterexample: a `null` response body matches neither envelope shape,
yet both `SearchManager.search` and `UsersManager.getFollowers` return their
`null` failure sentinel — not the documented empty default — because the
member access `data.data` raises a `TypeError` on a `null` body, which the
method's `try/catch` converts to `null`. -/
theorem envelope_null_body_counterexample :
    searchMethod (.resp 200 .null) = none ∧
    searchMethod (.resp 200 .null) ≠ some searchEmptyResult ∧
    getFollowers (.resp 200 .null) = none ∧
    getFollowers (.resp 200 .null) ≠ some followersEmptyResult := by
  refine ⟨rfl, ?_, rfl, ?_⟩
  · intro hcon
    have hnone : (none : Option Json) = some searchEmptyResult := hcon
    exact Option.noConfusion hnone
  · intro hcon
    have hnone : (none : Option Json) = some followersEmptyResult := hcon
    exact Option.noConfusion hnone

/-- C7 (amended): the read decoders attempt the nested `{ data: ... }` shape
first and fall back to the flat shape, so `{"data": p}` and `p` decode to the
identical logical result for every object payload `p` without a `data` field;
a non-`null` body matching neither shape yields the documented empty default;
a `null` body yields the `null` failure sentinel after an internally caught
`TypeError`; in no case does an exception reach the caller (the methods are
total functions into `Option`). -/
theorem envelope_fallback_contract :
    (∀ fields, lookupField fields "data" = none →
      searchMethod (.resp 200 (.obj [("data", .obj fields)]))
        = searchMethod (.resp 200 (.obj fields))) ∧
    (∀ fields, lookupField fields "data" = none →
      getFollowers (.resp 200 (.obj [("data", .obj fields)]))
        = getFollowers (.resp 200 (.obj fields))) ∧
    (∀ body, body ≠ .null → hasDataEnvelope body = false →
      hasFlatSearchFields body = false →
      searchMethod (.resp 200 body) = some searchEmptyResult) ∧
    (∀ body, body ≠ .null → hasDataEnvelope body = false →
      hasFlatUsersField body = false →
      getFollowers (.resp 200 body) = some followersEmptyResult) := by
  refine ⟨?_, ?_, ?_, ?_⟩
  · intro fields h
    rw [searchMethod_nested]
    by_cases hu : truthyOpt (lookupField fields "users") = true
    · rw [searchMethod_flat_truthy fields h (by simp [hu])]
    · have hu' : truthyOpt (lookupField fields "users") = false := by simpa using hu
      by_cases hh : truthyOpt (lookupField fields "hashtags") = true
      · rw [searchMethod_flat_truthy fields h (by simp [hh])]
      · have hh' : truthyOpt (lookupField fields "hashtags") = false := by simpa using hh
        rw [searchMethod_flat_falsy fields h hu' hh']
        simp [jsOr_of_falsy _ _ hu', jsOr_of_falsy _ _ hh', searchEmptyResult]
  · intro fields h
    cases hx : lookupField fields "users" with
    | some u =>
      by_cases ht : truthy u = true
      · rw [getFollowers_nested_truthy fields u hx ht,
          getFollowers_flat_truthy fields u h hx ht]
      · have hu' : truthyOpt (lookupField fields "users") = false := by
          simp [truthyOpt, hx]
          simpa using ht
        rw [getFollowers_nested_falsy fields hu', getFollowers_flat_falsy fields h hu']
    | none =>
      have hu' : truthyOpt (lookupField fields "users") = false := by
        simp [truthyOpt, hx]
      rw [getFollowers_nested_falsy fields hu', getFollowers_flat_falsy fields h hu']
  · intro body hnull henv hflat
    cases body with
    | null => exact absurd rfl hnull
    | bool b => simp [searchMethod, searchOn200, searchFlat, jsGet, truthyOpt]
    | num n => simp [searchMethod, searchOn200, searchFlat, jsGet, truthyOpt]
    | str s => simp [searchMethod, searchOn200, searchFlat, jsGet, truthyOpt]
    | arr xs => simp [searchMethod, searchOn200, searchFlat, jsGet, truthyOpt]
    | obj fields =>
      simp [hasDataEnvelope] at henv
      simp [hasFlatSearchFields] at hflat
      cases hd : lookupField fields "data" with
      | none => exact searchMethod_flat_falsy fields hd hflat.1 hflat.2
      | some d =>
        have htd : truthy d = false := by simpa [truthyOpt, hd] using henv
        simp [searchMethod, searchOn200, searchFlat, jsGet, hd, htd,
          hflat.1, hflat.2]
  · intro body hnull henv hflat
    cases body with
    | null => exact absurd rfl hnull
    | bool b => simp [getFollowers, getFollowersOn200, followersFlat, jsGet, truthyOpt]
    | num n => simp [getFollowers, getFollowersOn200, followersFlat, jsGet, truthyOpt]
    | str s => simp [getFollowers, getFollowersOn200, followersFlat, jsGet, truthyOpt]
    | arr xs => simp [getFollowers, getFollowersOn200, followersFlat, jsGet, truthyOpt]
    | obj fields =>
      simp [hasDataEnvelope] at henv
      simp [hasFlatUsersField] at hflat
      cases hd : lookupField fields "data" with
      | none => exact getFollowers_flat_falsy fields hd hflat
      | some d =>
        have htd : truthy d = false := by simpa [truthyOpt, hd] using henv
        cases hx : lookupField fields "users" with
        | none =>
          simp [getFollowers, getFollowersOn200, followersFlat, jsGet, hd, htd, hx]
        | some u =>
          have htu : truthy u = false := by simpa [truthyOpt, hx] using hflat
          simp [getFollowers, getFollowersOn200, followersFlat, jsGet, hd, htd,
            hx, htu]

/-- Witness for C7 (amended) at the spec's concrete bodies `{"data":{"x":1}}`,
`{"x":1}` and `{"y":1}`. -/
theorem envelope_fallback_contract_witness :
    searchMethod (.resp 200 (.obj [("data", .obj [("x", Json.num 1)])]))
      = searchMethod (.resp 200 (.obj [("x", Json.num 1)])) ∧
    getFollowers (.resp 200 (.obj [("data", .obj [("x", Json.num 1)])]))
      = getFollowers (.resp 200 (.obj [("x", Json.num 1)])) ∧
    searchMethod (.resp 200 (.obj [("y", Json.num 1)])) = some searchEmptyResult ∧
    getFollowers (.resp 200 (.obj [("y", Json.num 1)])) = some followersEmptyResult :=
  ⟨envelope_fallback_contract.1 [("x", Json.num 1)] rfl,
   envelope_fallback_contract.2.1 [("x", Json.num 1)] rfl,
   envelope_fallback_contract.2.2.1 (.obj [("y", Json.num 1)])
     (fun hcon => Json.noConfusion hcon) rfl rfl,
   envelope_fallback_contract.2.2.2 (.obj [("y", Json.num 1)])
     (fun hcon => Json.noConfusion hcon) rfl rfl⟩

end ITDSDK
